import Mathlib

/-!
A shallow embedding of the IPbus control-plane client found in
`IPbusInterface.h` (class `IPbusTarget`) and in the `IPbusControlPacket`
class, together with theorems about the packet builder, the response
validator and the exchange engine.

32-bit machine words are modelled as `Nat` reduced modulo `2^32` at each
point where the C++ computes on `quint32`.  Signal emissions (`emit` in the
Qt source) are modelled as lists of `Sig` values returned alongside the new
state; the synchronous signal/slot connection `error -> {stop timer; reset}`
installed by the `IPbusTarget` constructor is modelled by `IPbusTarget.emitError`.
-/

/-- `2^32`, the modulus of 32-bit unsigned arithmetic. -/
def wordModulus : Nat := 4294967296

/-- Reduce a natural number to a 32-bit word, as C++ `quint32` conversions do. -/
def word32 (n : Nat) : Nat := n % wordModulus

/-- Bitwise complement of a 32-bit word (`~x` on a `quint32`). -/
def compl32 (n : Nat) : Nat := Nat.xor 4294967295 (word32 n)

/-- Modelled from the spec: `IPbusHeaders.h` is not among the provided sources.
`PacketHeader(type, id)` packs protocol version 2 (bits 28-31), the packet id
(bits 8-27), the byte-order marker `0xF` (bits 4-7) and the packet type
(bits 0-3, 0 = control) into one word. -/
def PacketHeaderWord (ptype pid : Nat) : Nat :=
  word32 ((2 <<< 28) ||| (pid <<< 8) ||| (0xF <<< 4) ||| ptype)

/-- `PacketHeader(control, 0)`, the word placed at `request[0]` by the constructors. -/
def controlPacketHeader : Nat := PacketHeaderWord 0 0

/-- Modelled from the spec: the status packet is 64 bytes, a header word
`0x200000F1` followed by 15 zero words; `statusRequest.header` is that word. -/
def statusRequestHeader : Nat := 0x200000F1

/-- Modelled from the spec: the 16 words of the 64-byte status request packet. -/
def statusPacketWords : List Nat := 0x200000F1 :: List.replicate 15 0

/-- Modelled from the spec: `TransactionHeader(type, nWords, id)` packs protocol
version 2 (bits 28-31), the 12-bit transaction id (bits 16-27), the 8-bit word
count (bits 8-15), the 4-bit type id (bits 4-7) and info code 0 (bits 0-3). -/
def TransactionHeaderWord (typeID nWords id : Nat) : Nat :=
  word32 ((2 <<< 28) ||| ((id % 4096) <<< 16) ||| ((nWords % 256) <<< 8) ||| ((typeID % 16) <<< 4))

/-- `ProtocolVersion` field of a transaction header word (bits 28-31),
extracted as shift-then-mask (`% 16` is the 4-bit mask). -/
def thVersion (w : Nat) : Nat := (w >>> 28) % 16

/-- `TransactionID` field of a transaction header word (bits 16-27). -/
def thID (w : Nat) : Nat := (w >>> 16) % 4096

/-- `Words` field of a transaction header word (bits 8-15). -/
def thWords (w : Nat) : Nat := (w >>> 8) % 256

/-- `TypeID` field of a transaction header word (bits 4-7). -/
def thTypeID (w : Nat) : Nat := (w >>> 4) % 16

/-- `InfoCode` field of a transaction header word (bits 0-3). -/
def thInfoCode (w : Nat) : Nat := w % 16

/-- The `TransactionType` enumeration.  `read`/`write` in `IPbusInterface.h`
are named `ipread`/`ipwrite`, as in the `IPbusControlPacket` class. -/
inductive TransactionType
  | ipread
  | ipwrite
  | nonIncrementingRead
  | nonIncrementingWrite
  | configurationRead
  | configurationWrite
  | RMWbits
  | RMWsum
deriving DecidableEq, Repr

/-- Numeric type ids of the IPbus v2.0 transaction types. -/
def TransactionType.typeID : TransactionType → Nat
  | .ipread => 0
  | .ipwrite => 1
  | .nonIncrementingRead => 2
  | .nonIncrementingWrite => 3
  | .RMWbits => 4
  | .RMWsum => 5
  | .configurationRead => 6
  | .configurationWrite => 7

/-- Where a transaction record's `data` pointer points: `nullPtr` for a null
pointer, `callerPtr` for a caller-owned destination buffer, `reqPtr o` /
`respPtr o` for a pointer into the request / response buffer at word offset `o`. -/
inductive DataPtr
  | nullPtr
  | callerPtr
  | reqPtr (off : Nat)
  | respPtr (off : Nat)
deriving DecidableEq, Repr

/-- The `Transaction` record: the raw pointers of the source become word
offsets into the request / response buffers. -/
structure Transaction where
  requestHeaderOffset : Nat
  addressOffset : Nat
  responseHeaderOffset : Nat
  data : DataPtr
deriving DecidableEq, Repr

/-- The `errorType` enumeration. -/
inductive errorType
  | networkError
  | IPbusError
  | logicError
deriving DecidableEq, Repr

/-- Payloads of the `error(QString, errorType)` signal: one constructor per
distinct message produced by the source, carrying the numbers interpolated
into the format string. -/
inductive ErrMsg
  | emptyRequest
  | socketWriteError
  | sendingFailed
  | emptyResponse
  | incorrectResponse (nBytes : Nat)
  | packetSizeExceeded
  | unexpectedHeader (got expected : Nat)
  | truncatedRead (addr got want : Nat)
  | truncatedReadShort
  | wrongRMW
  | unknownTypeInResponse
  | infoCodeFault (infoCode addr : Nat)
deriving DecidableEq, Repr

/-- The Qt signals emitted by the two classes. -/
inductive Sig
  | error (m : ErrMsg) (t : errorType)
  | noResponse
  | IPbusStatusOK
  | successfulRead (nWords : Nat)
  | successfulWrite (nWords : Nat)
deriving DecidableEq, Repr

/-- Whether a signal is an emission of the `error` signal. -/
def Sig.isError : Sig → Bool
  | .error _ _ => true
  | _ => false

/-- State of an `IPbusControlPacket`: the request buffer as the list of its
first `requestSize` words (so `request.length` is `requestSize`), the
reserved `responseSize`, and the transaction list. -/
structure IPbusControlPacket where
  request : List Nat
  responseSize : Nat
  transactionsList : List Transaction
deriving DecidableEq, Repr

/-- A freshly constructed `IPbusControlPacket`: `request[0] = PacketHeader(control, 0)`,
both sizes 1, empty transaction list. -/
def IPbusControlPacket.new : IPbusControlPacket :=
  { request := [controlPacketHeader], responseSize := 1, transactionsList := [] }

/-- The `switch (type)` of `addTransaction`, applied after the transaction
header and the address have been appended: given the request so far, the
running response size (already incremented for the response header) and the
`data` argument (`none` models a null pointer), it returns the extended
request, the new response size and the transaction's `data` pointer. -/
def addTxnPayload (type : TransactionType) (req2 : List Nat) (respSize1 : Nat)
    (data : Option (List Nat)) (nWords : Nat) : List Nat × Nat × DataPtr :=
  match type with
  | .ipread | .nonIncrementingRead | .configurationRead =>
      (req2, respSize1 + nWords,
        match data with
        | none => DataPtr.nullPtr
        | some _ => DataPtr.callerPtr)
  | .ipwrite | .nonIncrementingWrite | .configurationWrite =>
      (req2 ++ (List.range nWords).map (fun i => word32 ((data.getD []).getD i 0)),
        respSize1, DataPtr.reqPtr req2.length)
  | .RMWbits =>
      (req2 ++ [word32 ((data.getD []).getD 0 0), word32 ((data.getD []).getD 1 0)],
        respSize1 + 1, DataPtr.respPtr respSize1)
  | .RMWsum =>
      (req2 ++ [word32 ((data.getD []).getD 0 0)],
        respSize1 + 1, DataPtr.respPtr respSize1)

/-- `IPbusControlPacket::addTransaction`.  The emitted signals are returned;
in this class the `error` signal is connected only to `debugPrint`, so an
emission has no state effect.  On overflow (`requestSize > maxPacket ||
responseSize > maxPacket`, `maxPacket = 368`) the transaction is not appended,
but the already-advanced sizes are kept. -/
def IPbusControlPacket.addTransaction (p : IPbusControlPacket) (type : TransactionType)
    (address : Nat) (data : Option (List Nat)) (nWords : Nat) :
    IPbusControlPacket × List Sig :=
  let reqHdrOff := p.request.length
  let req1 := p.request ++ [TransactionHeaderWord type.typeID nWords p.transactionsList.length]
  let addrOff := req1.length
  let req2 := req1 ++ [word32 address]
  let respHdrOff := p.responseSize
  let out := addTxnPayload type req2 (p.responseSize + 1) data nWords
  let t : Transaction :=
    { requestHeaderOffset := reqHdrOff, addressOffset := addrOff,
      responseHeaderOffset := respHdrOff, data := out.2.2 }
  if 368 < out.1.length ∨ 368 < out.2.1 then
    ({ request := out.1, responseSize := out.2.1, transactionsList := p.transactionsList },
      [Sig.error ErrMsg.packetSizeExceeded errorType.IPbusError])
  else
    ({ request := out.1, responseSize := out.2.1,
       transactionsList := p.transactionsList ++ [t] }, [])

/-- `IPbusControlPacket::addWordToWrite`. -/
def IPbusControlPacket.addWordToWrite (p : IPbusControlPacket) (address value : Nat) :
    IPbusControlPacket × List Sig :=
  p.addTransaction .ipwrite address (some [value]) 1

/-- `IPbusControlPacket::addNBitsToChange`. -/
def IPbusControlPacket.addNBitsToChange (p : IPbusControlPacket)
    (address data : Nat) (nbits shift : Nat) : IPbusControlPacket × List Sig :=
  if nbits = 32 then p.addTransaction .ipwrite address (some [data]) 1
  else
    let mask := word32 ((1 <<< nbits) - 1)
    p.addTransaction .RMWbits address
      (some [compl32 (mask <<< shift), word32 ((data &&& mask) <<< shift)]) 1

/-- `IPbusControlPacket::reset`. -/
def IPbusControlPacket.reset (p : IPbusControlPacket) : IPbusControlPacket :=
  { p with transactionsList := [], request := p.request.take 1, responseSize := 1 }

/-- `wordsAhead` in `IPbusControlPacket::processResponse`: the pointer
difference `response + responseSize - th - 1` converted to `quint32`. -/
def wordsAheadAt (respSize off : Nat) : Nat :=
  (((respSize : Int) - (off : Int) - 1) % (4294967296 : Int)).toNat

/-- The `k` words following the response transaction header at offset `off`. -/
def copyWords (resp : Nat → Nat) (off k : Nat) : List Nat :=
  (List.range k).map (fun j => resp (off + 1 + j))

/-- Outcome of the per-type `switch` inside a `processResponse` iteration:
either stop the walk now (`return false`), or continue to the info-code
check.  `copies` records each `memcpy`/copy-loop into a destination as the
pair (transaction index, words copied). -/
inductive StepOut
  | halt (sigs : List Sig) (copies : List (Nat × List Nat))
  | cont (sigs : List Sig) (copies : List (Nat × List Nat))

/-- Result of a `processResponse` run: the returned boolean, the emitted
signals in order, and the copies made into destination buffers. -/
structure PRResult where
  ok : Bool
  sigs : List Sig
  copies : List (Nat × List Nat)
deriving DecidableEq, Repr

/-- The `if (th->Words > 0) switch (th->TypeID)` of
`IPbusControlPacket::processResponse` for the transaction at index `i`. -/
def IPbusControlPacket.prStep (resp : Nat → Nat) (respSize : Nat) (req : List Nat)
    (i : Nat) (t : Transaction) : StepOut :=
  let thw := resp t.responseHeaderOffset
  let W := thWords thw
  if W = 0 then .cont [] []
  else
    match thTypeID thw with
    | 0 | 2 | 6 =>
        let ahead := wordsAheadAt respSize t.responseHeaderOffset
        if ahead < W then
          .halt
            (Sig.successfulRead (ahead % 256) ::
              (if thInfoCode thw = 0 then
                [Sig.error (ErrMsg.truncatedRead (req.getD t.addressOffset 0) ahead W)
                  errorType.IPbusError]
              else []))
            (if t.data ≠ DataPtr.nullPtr then
              [(i, copyWords resp t.responseHeaderOffset ahead)]
            else [])
        else
          .cont [Sig.successfulRead W]
            (if t.data ≠ DataPtr.nullPtr then
              [(i, copyWords resp t.responseHeaderOffset W)]
            else [])
    | 4 | 5 =>
        if W ≠ 1 then .halt [Sig.error ErrMsg.wrongRMW errorType.IPbusError] []
        else .cont [Sig.successfulRead 1, Sig.successfulWrite W] []
    | 1 | 3 | 7 => .cont [Sig.successfulWrite W] []
    | _ => .halt [Sig.error ErrMsg.unknownTypeInResponse errorType.IPbusError] []

/-- The walk of `IPbusControlPacket::processResponse` over the transaction
list, starting at transaction index `i`.  The fault carrying the info-code
mnemonic prints `*transactionsList.at(i).address + th->Words`. -/
def IPbusControlPacket.prGo (resp : Nat → Nat) (respSize : Nat) (req : List Nat) :
    Nat → List Transaction → PRResult
  | _, [] => ⟨true, [], []⟩
  | i, t :: rest =>
    let thw := resp t.responseHeaderOffset
    let reqHdr := req.getD t.requestHeaderOffset 0
    if thVersion thw ≠ 2 ∨ thID thw ≠ i ∨ thTypeID thw ≠ thTypeID reqHdr then
      ⟨false,
        [Sig.error (ErrMsg.unexpectedHeader thw (reqHdr &&& 0xFFFFFFF0)) errorType.IPbusError],
        []⟩
    else
      match IPbusControlPacket.prStep resp respSize req i t with
      | .halt ss cs => ⟨false, ss, cs⟩
      | .cont ss cs =>
        if thInfoCode thw ≠ 0 then
          ⟨false,
            ss ++ [Sig.error
              (ErrMsg.infoCodeFault (thInfoCode thw)
                (word32 (req.getD t.addressOffset 0 + thWords thw)))
              errorType.IPbusError],
            cs⟩
        else
          let r := IPbusControlPacket.prGo resp respSize req (i + 1) rest
          ⟨r.ok, ss ++ r.sigs, cs ++ r.copies⟩

/-- `IPbusControlPacket::processResponse`, given the contents of the response
buffer as a function from word offsets to words. -/
def IPbusControlPacket.processResponse (p : IPbusControlPacket) (resp : Nat → Nat) : PRResult :=
  IPbusControlPacket.prGo resp p.responseSize p.request 0 p.transactionsList

/-- State of an `IPbusTarget`: the request buffer as the list of its first
`requestSize` words, the response buffer as a total function from word
offsets (it is a fixed 368-word array whose tail keeps stale contents), the
reserved `responseSize`, the transaction list, the `isOnline` flag and
whether `updateTimer` is running. -/
structure IPbusTarget where
  request : List Nat
  responseSize : Nat
  response : Nat → Nat
  transactionsList : List Transaction
  isOnline : Bool
  timerActive : Bool

/-- A freshly constructed `IPbusTarget`: control packet header at
`request[0]`, sizes 1, offline, keepalive timer started. -/
def IPbusTarget.new : IPbusTarget :=
  { request := [controlPacketHeader], responseSize := 1, response := fun _ => 0,
    transactionsList := [], isOnline := false, timerActive := true }

/-- `IPbusTarget::resetTransactions` (a slot): both sizes back to 1 — so the
request keeps only the packet header word — and the transaction list cleared. -/
def IPbusTarget.resetTransactions (s : IPbusTarget) : IPbusTarget :=
  { s with request := s.request.take 1, responseSize := 1, transactionsList := [] }

/-- Emission of the `error` signal by `IPbusTarget`.  The constructor connects
`error` to a slot that stops `updateTimer` and calls `resetTransactions`; a Qt
direct connection runs that slot synchronously during `emit`, so the emission
itself transforms the state. -/
def IPbusTarget.emitError (s : IPbusTarget) (m : ErrMsg) (t : errorType) :
    IPbusTarget × List Sig :=
  ({ s.resetTransactions with timerActive := false }, [Sig.error m t])

/-- `IPbusTarget::addTransaction`: identical to the packet class's builder,
except that the overflow emission of `error` synchronously resets the builder
and stops the keepalive timer. -/
def IPbusTarget.addTransaction (s : IPbusTarget) (type : TransactionType)
    (address : Nat) (data : Option (List Nat)) (nWords : Nat) :
    IPbusTarget × List Sig :=
  let reqHdrOff := s.request.length
  let req1 := s.request ++ [TransactionHeaderWord type.typeID nWords s.transactionsList.length]
  let addrOff := req1.length
  let req2 := req1 ++ [word32 address]
  let respHdrOff := s.responseSize
  let out := addTxnPayload type req2 (s.responseSize + 1) data nWords
  let t : Transaction :=
    { requestHeaderOffset := reqHdrOff, addressOffset := addrOff,
      responseHeaderOffset := respHdrOff, data := out.2.2 }
  if 368 < out.1.length ∨ 368 < out.2.1 then
    IPbusTarget.emitError { s with request := out.1, responseSize := out.2.1 }
      ErrMsg.packetSizeExceeded errorType.IPbusError
  else
    let s' : IPbusTarget :=
      { s with
          request := out.1
          responseSize := out.2.1
          transactionsList := s.transactionsList ++ [t] }
    (s', [])

/-- `IPbusTarget::addWordToWrite`. -/
def IPbusTarget.addWordToWrite (s : IPbusTarget) (address value : Nat) :
    IPbusTarget × List Sig :=
  s.addTransaction .ipwrite address (some [value]) 1

/-- The per-type `switch` of `IPbusTarget::processResponse`.  Its read case
differs from the packet class: the copy loop
`while (src <= th + Words && src < response + responseSize)` runs first and
copies `min Words (responseSize - (off+1))` words, the truncation test is
`th + Words >= response + responseSize`, the truncated `successfulRead`
argument is the pointer difference converted to `quint8`, and the truncation
error is emitted unconditionally. -/
def IPbusTarget.prStepT (resp : Nat → Nat) (respSize : Nat) (i : Nat)
    (t : Transaction) : StepOut :=
  let thw := resp t.responseHeaderOffset
  let W := thWords thw
  if W = 0 then .cont [] []
  else
    match thTypeID thw with
    | 0 | 2 | 6 =>
        let cnt := min W (respSize - (t.responseHeaderOffset + 1))
        let cs :=
          if t.data ≠ DataPtr.nullPtr then
            [(i, copyWords resp t.responseHeaderOffset cnt)]
          else []
        if respSize ≤ t.responseHeaderOffset + W then
          .halt
            [Sig.successfulRead
                ((((respSize : Int) - (t.responseHeaderOffset : Int) - 1) % (256 : Int)).toNat),
              Sig.error ErrMsg.truncatedReadShort errorType.IPbusError]
            cs
        else
          .cont [Sig.successfulRead W] cs
    | 4 | 5 =>
        if W ≠ 1 then .halt [Sig.error ErrMsg.wrongRMW errorType.IPbusError] []
        else .cont [Sig.successfulRead 1, Sig.successfulWrite W] []
    | 1 | 3 | 7 => .cont [Sig.successfulWrite W] []
    | _ => .halt [Sig.error ErrMsg.unknownTypeInResponse errorType.IPbusError] []

/-- The walk of `IPbusTarget::processResponse`.  Here the info-code fault
prints the plain `*transactionsList.at(i).address`. -/
def IPbusTarget.prGoT (resp : Nat → Nat) (respSize : Nat) (req : List Nat) :
    Nat → List Transaction → PRResult
  | _, [] => ⟨true, [], []⟩
  | i, t :: rest =>
    let thw := resp t.responseHeaderOffset
    let reqHdr := req.getD t.requestHeaderOffset 0
    if thVersion thw ≠ 2 ∨ thID thw ≠ i ∨ thTypeID thw ≠ thTypeID reqHdr then
      ⟨false,
        [Sig.error (ErrMsg.unexpectedHeader thw (reqHdr &&& 0xFFFFFFF0)) errorType.IPbusError],
        []⟩
    else
      match IPbusTarget.prStepT resp respSize i t with
      | .halt ss cs => ⟨false, ss, cs⟩
      | .cont ss cs =>
        if thInfoCode thw ≠ 0 then
          ⟨false,
            ss ++ [Sig.error
              (ErrMsg.infoCodeFault (thInfoCode thw) (req.getD t.addressOffset 0))
              errorType.IPbusError],
            cs⟩
        else
          let r := IPbusTarget.prGoT resp respSize req (i + 1) rest
          ⟨r.ok, ss ++ r.sigs, cs ++ r.copies⟩

/-- A UDP datagram handed to `readDatagram`: its byte length and its word
contents. -/
structure Datagram where
  byteLen : Nat
  words : Nat → Nat

/-- The socket behaviour during one `transceive` call: the value returned by
`qsocket->write` and the queue of datagrams that arrive in time. -/
structure SocketModel where
  writeResult : Int
  incoming : List Datagram

/-- `readDatagram`'s effect on the response buffer: the first
`ceil(byteLen / 4)` words are overwritten by the datagram's contents, the
rest keeps the old contents of the fixed array. -/
def overwriteResponse (old : Nat → Nat) (d : Datagram) : Nat → Nat :=
  fun i => if i < (d.byteLen + 3) / 4 then word32 (d.words i) else old i

/-- Result of a `transceive` call: the new state, the returned boolean, the
emitted signals, the copies into destination buffers, and the payloads passed
to `qsocket->write`. -/
structure TxResult where
  state : IPbusTarget
  ok : Bool
  sigs : List Sig
  copies : List (Nat × List Nat)
  sent : List (List Nat)

/-- The tail of `transceive` after a datagram of `n` bytes has been read into
the response buffer: the empty-response and incorrect-response checks, then
`responseSize = n / 4`, optional response processing, and `resetTransactions`.
An error emitted inside `processResponse` has already stopped the timer and
reset the builder when `transceive` resets it again. -/
def IPbusTarget.afterRead (s : IPbusTarget) (n : Nat) (shouldProcess : Bool)
    (sent : List (List Nat)) : TxResult :=
  if n = 0 then
    let r := s.emitError ErrMsg.emptyResponse errorType.networkError
    ⟨r.1, false, r.2, [], sent⟩
  else if s.responseSize < n / 4 ∨ s.response 0 ≠ s.request.getD 0 0 ∨ 0 < n % 4 then
    let r := s.emitError (ErrMsg.incorrectResponse n) errorType.networkError
    ⟨r.1, false, r.2, [], sent⟩
  else
    let s1 : IPbusTarget := { s with responseSize := n / 4 }
    if shouldProcess then
      let r := IPbusTarget.prGoT s1.response s1.responseSize s1.request 0 s1.transactionsList
      ⟨{ s1.resetTransactions with
          timerActive := s1.timerActive && !(r.sigs.any Sig.isError) },
        r.ok, r.sigs, r.copies, sent⟩
    else
      ⟨s1.resetTransactions, true, [], [], sent⟩

/-- `IPbusTarget::transceive`: empty-request check, socket write, first wait,
stale status-packet discard with a second wait, then `afterRead`. -/
def IPbusTarget.transceive (s : IPbusTarget) (sock : SocketModel)
    (shouldProcess : Bool) : TxResult :=
  if s.request.length ≤ 1 then
    let r := s.emitError ErrMsg.emptyRequest errorType.logicError
    ⟨r.1, false, r.2, [], []⟩
  else
    let sent := [s.request]
    if sock.writeResult < 0 then
      let r := s.emitError ErrMsg.socketWriteError errorType.networkError
      ⟨r.1, false, r.2, [], sent⟩
    else if sock.writeResult ≠ (s.request.length * 4 : Int) then
      let r := s.emitError ErrMsg.sendingFailed errorType.networkError
      ⟨r.1, false, r.2, [], sent⟩
    else
      match sock.incoming with
      | [] => ⟨{ s with isOnline := false }, false, [Sig.noResponse], [], sent⟩
      | d :: rest =>
        let s1 : IPbusTarget := { s with response := overwriteResponse s.response d }
        if d.byteLen = 64 ∧ s1.response 0 = statusRequestHeader then
          match rest with
          | [] => ⟨{ s1 with isOnline := false }, false, [Sig.noResponse], [], sent⟩
          | d2 :: _ =>
            let s2 : IPbusTarget := { s1 with response := overwriteResponse s1.response d2 }
            s2.afterRead d2.byteLen shouldProcess sent
        else
          s1.afterRead d.byteLen shouldProcess sent

/-- `IPbusTarget::checkStatus`: write the 64-byte status request, then set
`isOnline` and emit `IPbusStatusOK` if any datagram arrives in time, else
clear `isOnline` and emit `noResponse`.  The reply itself is read into
`statusResponse` but never inspected. -/
def IPbusTarget.checkStatus (s : IPbusTarget) (incoming : List Datagram) :
    IPbusTarget × List Sig × List (List Nat) :=
  match incoming with
  | [] => ({ s with isOnline := false }, [Sig.noResponse], [statusPacketWords])
  | _ :: _ => ({ s with isOnline := true }, [Sig.IPbusStatusOK], [statusPacketWords])

/-- Result of `readRegister`: the new state, the returned word, the inner
`transceive` outcome, the emitted signals and the sent payloads. -/
structure RRResult where
  state : IPbusTarget
  value : Nat
  ok : Bool
  sigs : List Sig
  sent : List (List Nat)

/-- The copy event recorded for transaction index `i`, if any. -/
def lookupCopy (copies : List (Nat × List Nat)) (i : Nat) : Option (List Nat) :=
  (copies.filter (fun c => c.1 = i)).head?.map Prod.snd

/-- `IPbusTarget::readRegister`: `data = 0xFFFFFFFF`, add a one-word read
whose destination is the local `data`, transceive, and return `data` on
success or `0xFFFFFFFF` on failure.  The local `data` ends up holding the
first word copied for the added transaction, if any. -/
def IPbusTarget.readRegister (s : IPbusTarget) (sock : SocketModel)
    (address : Nat) : RRResult :=
  let idx := s.transactionsList.length
  let a := s.addTransaction .ipread address (some [4294967295]) 1
  let r := a.1.transceive sock true
  let value :=
    match lookupCopy r.copies idx with
    | some ws => ws.headD 4294967295
    | none => 4294967295
  ⟨r.state, if r.ok then value else 4294967295, r.ok, a.2 ++ r.sigs, r.sent⟩

/-- The builder is back in its initial state and the keepalive timer stopped. -/
def IPbusTarget.isBuilderReset (s : IPbusTarget) : Prop :=
  s.request.length = 1 ∧ s.responseSize = 1 ∧ s.transactionsList = [] ∧
    s.timerActive = false

/-- A target holding one single-word write transaction, as built by
`addTransaction(write, 0x1000, &data, 1)` on a fresh target. -/
def sampleWriteTarget : IPbusTarget :=
  (IPbusTarget.new.addTransaction .ipwrite 0x1000 (some [5]) 1).1

/-- The `Words` field of a transaction header is an 8-bit quantity. -/
theorem thWords_lt256 (w : Nat) : thWords w < 256 :=
  Nat.mod_lt _ (by norm_num)

/-- `addTxnPayload` only ever appends to the request and only ever grows the
response size. -/
theorem addTxnPayload_growth (type : TransactionType) (req2 : List Nat) (rs : Nat)
    (data : Option (List Nat)) (n : Nat) :
    req2.length ≤ (addTxnPayload type req2 rs data n).1.length ∧
      rs ≤ (addTxnPayload type req2 rs data n).2.1 := by
  cases type <;> simp [addTxnPayload]

/-- Both branches of the overflow check leave the same request buffer. -/
theorem IPbusTarget.addTransaction_request (s : IPbusTarget) (type : TransactionType)
    (address : Nat) (data : Option (List Nat)) (nWords : Nat) :
    1 ≤ s.request.length →
      1 ≤ (s.addTransaction type address data nWords).1.request.length := by
  intro h
  unfold IPbusTarget.addTransaction
  have hg := addTxnPayload_growth type
    ((s.request ++ [TransactionHeaderWord type.typeID nWords s.transactionsList.length])
      ++ [word32 address]) (s.responseSize + 1) data nWords
  simp only [List.length_append, List.length_singleton] at hg
  dsimp only
  split
  · simp only [IPbusTarget.emitError, IPbusTarget.resetTransactions, List.length_take]
    omega
  · dsimp only
    omega

/-- `afterRead` returns the `sent` list it was given. -/
theorem IPbusTarget.afterRead_sent (s : IPbusTarget) (n : Nat) (b : Bool)
    (sent : List (List Nat)) : (s.afterRead n b sent).sent = sent := by
  unfold IPbusTarget.afterRead
  repeat' split
  all_goals rfl

/-- `transceive` with nothing but the packet header in the request: the
"Empty request" logic error, with the synchronous error slot applied. -/
theorem IPbusTarget.transceive_short (s : IPbusTarget) (sock : SocketModel) (b : Bool)
    (h : s.request.length ≤ 1) :
    s.transceive sock b =
      ⟨{ s with
          request := s.request.take 1
          responseSize := 1
          transactionsList := []
          timerActive := false },
        false, [Sig.error ErrMsg.emptyRequest errorType.logicError], [], []⟩ := by
  unfold IPbusTarget.transceive
  rw [if_pos h]
  rfl

/-- C1 counterexample: on a freshly constructed target the packet holds only
the packet header (`requestSize = 1`), and `transceive` returns `false` while
emitting an "Empty request" error of kind `logicError` — the claim says the
call returns success and that an empty request is not treated as a logic
error. -/
theorem c1_counterexample :
    (IPbusTarget.new.transceive ⟨0, []⟩ true).ok = false ∧
      (IPbusTarget.new.transceive ⟨0, []⟩ true).sigs =
        [Sig.error ErrMsg.emptyRequest errorType.logicError] :=
  ⟨rfl, rfl⟩

/-- C1 (amended): calling `transceive` when `requestSize ≤ 1` emits an
"Empty request" error of kind `logicError` and returns failure, without
sending anything on the socket; the synchronously connected error slot resets
the builder and stops the keepalive timer. -/
theorem c1_empty_request_is_logic_error (s : IPbusTarget) (sock : SocketModel)
    (b : Bool) (h : s.request.length ≤ 1) :
    s.transceive sock b =
      ⟨{ s with
          request := s.request.take 1
          responseSize := 1
          transactionsList := []
          timerActive := false },
        false, [Sig.error ErrMsg.emptyRequest errorType.logicError], [], []⟩ :=
  IPbusTarget.transceive_short s sock b h

/-- Witness for C1 at a concrete input. -/
theorem c1_empty_request_is_logic_error_witness :
    IPbusTarget.new.transceive ⟨7, []⟩ false =
      ⟨{ IPbusTarget.new with
          request := IPbusTarget.new.request.take 1
          responseSize := 1
          transactionsList := []
          timerActive := false },
        false, [Sig.error ErrMsg.emptyRequest errorType.logicError], [], []⟩ :=
  c1_empty_request_is_logic_error IPbusTarget.new ⟨7, []⟩ false (by decide)

/-- C2 counterexample: a target that is not Online (`isOnline = false`) with
one queued write transaction: `transceive` writes the request datagram to the
socket anyway, and — when a well-formed response arrives — even returns
success. -/
theorem c2_counterexample :
    sampleWriteTarget.isOnline = false ∧
      (sampleWriteTarget.transceive
          ⟨16, [⟨8, fun i => List.getD [0x200000F0, 0x20000110] i 0⟩]⟩ true).sent =
        [sampleWriteTarget.request] ∧
      (sampleWriteTarget.transceive
          ⟨16, [⟨8, fun i => List.getD [0x200000F0, 0x20000110] i 0⟩]⟩ true).ok = true :=
  ⟨rfl, rfl, rfl⟩

/-- C2 (amended): `transceive` never consults the online flag; whenever the
request holds more than the packet header it writes the request to the socket
even while the target is not Online, and the outcome is decided solely by the
socket's behaviour. -/
theorem c2_sends_while_offline (s : IPbusTarget) (sock : SocketModel) (b : Bool)
    (hoff : s.isOnline = false) (hreq : 1 < s.request.length) :
    (s.transceive sock b).sent = [s.request] := by
  unfold IPbusTarget.transceive
  rw [if_neg (by omega)]
  dsimp only
  repeat' split
  all_goals first
    | rfl
    | apply IPbusTarget.afterRead_sent

/-- Witness for C2 at a concrete input. -/
theorem c2_sends_while_offline_witness :
    (sampleWriteTarget.transceive ⟨16, []⟩ true).sent = [sampleWriteTarget.request] :=
  c2_sends_while_offline sampleWriteTarget ⟨16, []⟩ true rfl (by decide)

/-- C4 counterexample: a malformed 10-byte datagram whose first word is 0 —
not the status request's header — still drives `checkStatus` to set the
target Online and emit `IPbusStatusOK`; the claim says this happens only when
the reply's first word matches the status request's header. -/
theorem c4_counterexample :
    (IPbusTarget.new.checkStatus [⟨10, fun _ => 0⟩]).1.isOnline = true ∧
      (IPbusTarget.new.checkStatus [⟨10, fun _ => 0⟩]).2.1 = [Sig.IPbusStatusOK] :=
  ⟨rfl, rfl⟩

/-- C4 (amended): `checkStatus` writes the status packet and then sets the
target Online and emits `IPbusStatusOK` whenever any datagram at all arrives
within the timeout, without validating its size or first word; it sets the
target offline and emits `noResponse` exactly when no datagram arrives. -/
theorem c4_check_status_accepts_any_reply (s : IPbusTarget)
    (incoming : List Datagram) :
    (s.checkStatus incoming).1.isOnline = !incoming.isEmpty ∧
      (s.checkStatus incoming).2.1 =
        (if incoming.isEmpty then [Sig.noResponse] else [Sig.IPbusStatusOK]) ∧
      (s.checkStatus incoming).2.2 = [statusPacketWords] := by
  cases incoming <;> simp [IPbusTarget.checkStatus]

/-- C3 counterexample: a 255-word read brings `responseSize` to 257; a second
255-word read overflows, is rejected (the transaction list is unchanged), but
`responseSize` is left at 513 — not at 257, and far beyond 368. -/
theorem c3_counterexample :
    (IPbusControlPacket.new.addTransaction .ipread 0 none 255).1.responseSize = 257 ∧
      ((IPbusControlPacket.new.addTransaction .ipread 0 none 255).1.addTransaction
          .ipread 0 none 255).2 =
        [Sig.error ErrMsg.packetSizeExceeded errorType.IPbusError] ∧
      ((IPbusControlPacket.new.addTransaction .ipread 0 none 255).1.addTransaction
          .ipread 0 none 255).1.responseSize = 513 ∧
      ((IPbusControlPacket.new.addTransaction .ipread 0 none 255).1.addTransaction
          .ipread 0 none 255).1.transactionsList =
        (IPbusControlPacket.new.addTransaction .ipread 0 none 255).1.transactionsList :=
  ⟨rfl, rfl, rfl, rfl⟩

/-- C3 (amended): after every accepted `addTransaction` call on
`IPbusControlPacket` both `1 ≤ requestSize ≤ 368` and
`1 ≤ responseSize ≤ 368` hold; an overflowing call emits a packet-size error
and does not append the transaction, but the sizes keep the advanced values
they were given before the check, so at least one of them exceeds 368
(in `IPbusTarget` the error signal's slot then resets both sizes to 1). -/
theorem c3_builder_size_invariant (p : IPbusControlPacket) (type : TransactionType)
    (address : Nat) (data : Option (List Nat)) (nWords : Nat)
    (hreq : 1 ≤ p.request.length) (hresp : 1 ≤ p.responseSize) :
    ((p.addTransaction type address data nWords).2 = [] →
      1 ≤ (p.addTransaction type address data nWords).1.request.length ∧
        (p.addTransaction type address data nWords).1.request.length ≤ 368 ∧
        1 ≤ (p.addTransaction type address data nWords).1.responseSize ∧
        (p.addTransaction type address data nWords).1.responseSize ≤ 368) ∧
    ((p.addTransaction type address data nWords).2 ≠ [] →
      (p.addTransaction type address data nWords).1.transactionsList =
          p.transactionsList ∧
        (368 < (p.addTransaction type address data nWords).1.request.length ∨
          368 < (p.addTransaction type address data nWords).1.responseSize)) := by
  have hg := addTxnPayload_growth type
    ((p.request ++ [TransactionHeaderWord type.typeID nWords p.transactionsList.length])
      ++ [word32 address]) (p.responseSize + 1) data nWords
  simp only [List.length_append, List.length_singleton] at hg
  unfold IPbusControlPacket.addTransaction
  dsimp only
  split
  · refine ⟨fun hc => absurd hc (by simp), fun _ => ⟨rfl, ?_⟩⟩
    dsimp only
    omega
  · refine ⟨fun _ => ?_, fun hc => absurd rfl hc⟩
    dsimp only
    omega

/-- Witness for C3 at a concrete accepted call. -/
theorem c3_builder_size_invariant_witness :
    1 ≤ (IPbusControlPacket.new.addTransaction .ipwrite 4096 (some [5]) 1).1.request.length ∧
      (IPbusControlPacket.new.addTransaction .ipwrite 4096 (some [5]) 1).1.request.length ≤ 368 ∧
      1 ≤ (IPbusControlPacket.new.addTransaction .ipwrite 4096 (some [5]) 1).1.responseSize ∧
      (IPbusControlPacket.new.addTransaction .ipwrite 4096 (some [5]) 1).1.responseSize ≤ 368 :=
  (c3_builder_size_invariant IPbusControlPacket.new .ipwrite 4096 (some [5]) 1
    (by decide) (by decide)).1 (by decide)

/-- `compl32` always yields a 32-bit word. -/
theorem compl32_lt (n : Nat) : compl32 n < wordModulus := by
  have hm : wordModulus = 2 ^ 32 := by norm_num [wordModulus]
  have h1 : (4294967295 : Nat) < 2 ^ 32 := by norm_num
  have h2 : word32 n < 2 ^ 32 := by
    rw [← hm]
    exact Nat.mod_lt n (by norm_num [wordModulus])
  rw [hm]
  exact Nat.xor_lt_two_pow h1 h2

/-- Reducing an already-reduced word is the identity. -/
theorem word32_word32 (n : Nat) : word32 (word32 n) = word32 n :=
  Nat.mod_mod_of_dvd n dvd_rfl

/-- `word32` is the identity on `compl32`'s results. -/
theorem word32_compl32 (n : Nat) : word32 (compl32 n) = compl32 n :=
  Nat.mod_eq_of_lt (compl32_lt n)

/-- C7: `addNBitsToChange(address, data, 32, 0)` produces exactly the state
and signals of `addWordToWrite(address, data)` — in particular identical
request bytes — and for `nbits < 32` it emits an RMWbits transaction whose
request words are the transaction header, the address, the AND term
`~(((1 << nbits) - 1) << shift)` and the OR term
`(data & ((1 << nbits) - 1)) << shift`, all reduced modulo `2^32`. -/
theorem c7_bit_change (p : IPbusControlPacket) (address data nbits shift : Nat) :
    p.addNBitsToChange address data 32 0 = p.addWordToWrite address data ∧
    (nbits < 32 →
      (p.addNBitsToChange address data nbits shift).1.request =
        p.request ++ [TransactionHeaderWord 4 1 p.transactionsList.length, word32 address,
          compl32 (((1 <<< nbits) - 1) <<< shift),
          word32 ((data &&& ((1 <<< nbits) - 1)) <<< shift)]) := by
  constructor
  · rfl
  · intro h
    have hmask : word32 ((1 <<< nbits) - 1) = (1 <<< nbits) - 1 := by
      apply Nat.mod_eq_of_lt
      have h2 : (2 : Nat) ^ nbits ≤ 2 ^ 31 := Nat.pow_le_pow_right (by norm_num) (by omega)
      rw [Nat.one_shiftLeft]
      norm_num [wordModulus]
      omega
    unfold IPbusControlPacket.addNBitsToChange
    rw [if_neg (by omega)]
    dsimp only
    rw [hmask]
    unfold IPbusControlPacket.addTransaction
    dsimp only [addTxnPayload]
    split <;>
      simp [word32_compl32, word32_word32, List.append_assoc, TransactionType.typeID]

/-- Witness for C7 at a concrete input (clearing bit 5 via a 1-bit change). -/
theorem c7_bit_change_witness :
    (IPbusControlPacket.new.addNBitsToChange 16384 0 1 5).1.request =
      IPbusControlPacket.new.request ++
        [TransactionHeaderWord 4 1 IPbusControlPacket.new.transactionsList.length,
          word32 16384, compl32 (((1 <<< 1) - 1) <<< 5),
          word32 ((0 &&& ((1 <<< 1) - 1)) <<< 5)] :=
  (c7_bit_change IPbusControlPacket.new 16384 0 1 5).2 (by decide)

/-- C5: for a single read transaction whose response header declares `W`
words while only `ahead` words remain before the end of the response buffer,
`processResponse` copies the `ahead` available words to the caller's
destination, emits `successfulRead ahead`, additionally emits the
truncated-read IPbus error when the info code is 0, and returns failure;
when `W ≤ ahead` it copies `W` words, emits `successfulRead W` and (with
info code 0) succeeds. -/
theorem c5_truncated_read (p : IPbusControlPacket) (t : Transaction)
    (resp : Nat → Nat) (W ahead : Nat)
    (hT : p.transactionsList = [t])
    (hver : thVersion (resp t.responseHeaderOffset) = 2)
    (hid : thID (resp t.responseHeaderOffset) = 0)
    (hty : thTypeID (resp t.responseHeaderOffset) = 0)
    (hreqty : thTypeID (p.request.getD t.requestHeaderOffset 0) = 0)
    (hW : W = thWords (resp t.responseHeaderOffset))
    (hahead : ahead = wordsAheadAt p.responseSize t.responseHeaderOffset)
    (hdest : t.data = DataPtr.callerPtr)
    (hWpos : 0 < W) :
    (ahead < W →
      p.processResponse resp =
        ⟨false,
          Sig.successfulRead ahead ::
            (if thInfoCode (resp t.responseHeaderOffset) = 0 then
              [Sig.error
                (ErrMsg.truncatedRead (p.request.getD t.addressOffset 0) ahead W)
                errorType.IPbusError]
            else []),
          [(0, copyWords resp t.responseHeaderOffset ahead)]⟩) ∧
    (W ≤ ahead → thInfoCode (resp t.responseHeaderOffset) = 0 →
      p.processResponse resp =
        ⟨true, [Sig.successfulRead W], [(0, copyWords resp t.responseHeaderOffset W)]⟩) := by
  subst hW
  subst hahead
  unfold IPbusControlPacket.processResponse
  rw [hT]
  unfold IPbusControlPacket.prGo
  rw [if_neg (by simp only [hver, hid, hty, hreqty]; simp)]
  unfold IPbusControlPacket.prStep
  dsimp only
  rw [if_neg (by omega)]
  rw [hty]
  dsimp only
  constructor
  · intro hlt
    rw [if_pos hlt]
    rw [hdest]
    have hm : wordsAheadAt p.responseSize t.responseHeaderOffset % 256 =
        wordsAheadAt p.responseSize t.responseHeaderOffset :=
      Nat.mod_eq_of_lt (hlt.trans (thWords_lt256 _))
    simp [hm]
  · intro hge hinfo
    rw [if_neg (by omega)]
    dsimp only
    rw [if_neg (by simp [hinfo])]
    unfold IPbusControlPacket.prGo
    simp [hdest]

/-- Witness for C5 at spec scenario 3: a 4-word read answered with only 2
payload words and info code 0. -/
theorem c5_truncated_read_witness :
    IPbusControlPacket.processResponse
        ⟨[0x200000F0, 0x20000400, 0x3000], 4, [⟨1, 2, 1, DataPtr.callerPtr⟩]⟩
        (fun i => List.getD [0x200000F0, 0x20000400, 0x2A, 0x2B] i 0) =
      ⟨false,
        [Sig.successfulRead 2,
          Sig.error (ErrMsg.truncatedRead 0x3000 2 4) errorType.IPbusError],
        [(0, [0x2A, 0x2B])]⟩ :=
  (c5_truncated_read
      ⟨[0x200000F0, 0x20000400, 0x3000], 4, [⟨1, 2, 1, DataPtr.callerPtr⟩]⟩
      ⟨1, 2, 1, DataPtr.callerPtr⟩
      (fun i => List.getD [0x200000F0, 0x20000400, 0x2A, 0x2B] i 0) 4 2
      rfl (by decide) (by decide) (by decide) (by decide) (by decide) (by decide)
      rfl (by decide)).1 (by decide)

/-- C6 counterexample: a single-word write whose response header carries info
code 6 and whose transaction address is 0x1000 = 4096.  The emitted fault
carries the address 4097 (`*address + th->Words`), not the transaction's
address 4096, so the fault does not carry the offending transaction's
address as the claim states. -/
theorem c6_counterexample :
    IPbusControlPacket.processResponse
        ⟨[0x200000F0, 0x20000110, 0x1000], 2, [⟨1, 2, 1, DataPtr.reqPtr 3⟩]⟩
        (fun i => List.getD [0x200000F0, 0x20000116] i 0) =
      ⟨false,
        [Sig.successfulWrite 1,
          Sig.error (ErrMsg.infoCodeFault 6 4097) errorType.IPbusError],
        []⟩ ∧
      List.getD [(0x200000F0 : Nat), 0x20000110, 0x1000] 2 0 = 4096 :=
  ⟨rfl, rfl⟩

/-- C6 (amended): take the validator walk at any transaction index `i`
(`processResponse` is this walk started at index 0) whose leading response
transaction header is well-formed (version 2, id `i`, type matching the
request) and carries a non-zero info code.  When the per-type handling
raises no earlier error, the validator emits the per-type success signals
followed by exactly one IPbus fault carrying the info-code mnemonic and the
transaction's address plus its declared word count (mod `2^32`), returns
failure, and neither validates nor reports any later transaction (`rest` is
arbitrary and absent from every result).  Case by case: writes emit
`successfulWrite W` then the fault; non-truncated reads copy the `W` words,
emit `successfulRead W`, then the fault; RMW transactions with word count 1
emit `successfulRead 1`, `successfulWrite 1`, then the fault; a header with
word count 0 yields the fault alone; and a truncated read (`ahead < W`)
returns failure after copying the `ahead` words and emitting
`successfulRead ahead`, without emitting the info-code fault. -/
theorem c6_info_code_fault (resp : Nat → Nat) (respSize : Nat) (req : List Nat)
    (i : Nat) (t : Transaction) (rest : List Transaction)
    (hver : thVersion (resp t.responseHeaderOffset) = 2)
    (hid : thID (resp t.responseHeaderOffset) = i)
    (hty : thTypeID (resp t.responseHeaderOffset) =
      thTypeID (req.getD t.requestHeaderOffset 0))
    (hinfo : thInfoCode (resp t.responseHeaderOffset) ≠ 0) :
    ((thTypeID (resp t.responseHeaderOffset) = 1 ∨
        thTypeID (resp t.responseHeaderOffset) = 3 ∨
        thTypeID (resp t.responseHeaderOffset) = 7) →
      IPbusControlPacket.prGo resp respSize req i (t :: rest) =
        ⟨false,
          (if 0 < thWords (resp t.responseHeaderOffset) then
            [Sig.successfulWrite (thWords (resp t.responseHeaderOffset))]
          else []) ++
            [Sig.error
              (ErrMsg.infoCodeFault (thInfoCode (resp t.responseHeaderOffset))
                (word32 (req.getD t.addressOffset 0 +
                  thWords (resp t.responseHeaderOffset))))
              errorType.IPbusError],
          []⟩) ∧
    (thTypeID (resp t.responseHeaderOffset) = 0 →
     t.data = DataPtr.callerPtr →
     0 < thWords (resp t.responseHeaderOffset) →
     thWords (resp t.responseHeaderOffset) ≤ wordsAheadAt respSize t.responseHeaderOffset →
      IPbusControlPacket.prGo resp respSize req i (t :: rest) =
        ⟨false,
          [Sig.successfulRead (thWords (resp t.responseHeaderOffset)),
            Sig.error
              (ErrMsg.infoCodeFault (thInfoCode (resp t.responseHeaderOffset))
                (word32 (req.getD t.addressOffset 0 +
                  thWords (resp t.responseHeaderOffset))))
              errorType.IPbusError],
          [(i, copyWords resp t.responseHeaderOffset
              (thWords (resp t.responseHeaderOffset)))]⟩) ∧
    ((thTypeID (resp t.responseHeaderOffset) = 4 ∨
        thTypeID (resp t.responseHeaderOffset) = 5) →
     thWords (resp t.responseHeaderOffset) = 1 →
      IPbusControlPacket.prGo resp respSize req i (t :: rest) =
        ⟨false,
          [Sig.successfulRead 1, Sig.successfulWrite 1,
            Sig.error
              (ErrMsg.infoCodeFault (thInfoCode (resp t.responseHeaderOffset))
                (word32 (req.getD t.addressOffset 0 + 1)))
              errorType.IPbusError],
          []⟩) ∧
    (thTypeID (resp t.responseHeaderOffset) = 0 →
     t.data = DataPtr.callerPtr →
     wordsAheadAt respSize t.responseHeaderOffset < thWords (resp t.responseHeaderOffset) →
      IPbusControlPacket.prGo resp respSize req i (t :: rest) =
        ⟨false,
          [Sig.successfulRead (wordsAheadAt respSize t.responseHeaderOffset)],
          [(i, copyWords resp t.responseHeaderOffset
              (wordsAheadAt respSize t.responseHeaderOffset))]⟩) ∧
    (thWords (resp t.responseHeaderOffset) = 0 →
      IPbusControlPacket.prGo resp respSize req i (t :: rest) =
        ⟨false,
          [Sig.error
            (ErrMsg.infoCodeFault (thInfoCode (resp t.responseHeaderOffset))
              (word32 (req.getD t.addressOffset 0 + 0)))
            errorType.IPbusError],
          []⟩) := by
  refine ⟨?_, ?_, ?_, ?_, ?_⟩
  · intro hwr
    unfold IPbusControlPacket.prGo
    rw [if_neg (by simp only [hver, hid, hty]; simp)]
    unfold IPbusControlPacket.prStep
    dsimp only
    by_cases hW0 : thWords (resp t.responseHeaderOffset) = 0
    · rw [if_pos hW0]
      dsimp only
      rw [if_pos hinfo]
      simp [hW0]
    · rw [if_neg hW0]
      rcases hwr with h | h | h <;>
        · rw [h]
          dsimp only
          rw [if_pos hinfo]
          simp [Nat.pos_of_ne_zero hW0]
  · intro hrd hdest hWpos hge
    unfold IPbusControlPacket.prGo
    rw [if_neg (by simp only [hver, hid, hty]; simp)]
    unfold IPbusControlPacket.prStep
    dsimp only
    rw [if_neg (by omega)]
    rw [hrd]
    dsimp only
    rw [if_neg (by omega)]
    rw [hdest]
    dsimp only
    rw [if_pos hinfo]
    simp
  · intro hrmw hW1
    unfold IPbusControlPacket.prGo
    rw [if_neg (by simp only [hver, hid, hty]; simp)]
    unfold IPbusControlPacket.prStep
    dsimp only
    rw [if_neg (by omega)]
    rcases hrmw with h | h <;>
      · rw [h]
        dsimp only
        rw [if_neg (by omega)]
        rw [hW1]
        dsimp only
        rw [if_pos hinfo]
        simp [hW1]
  · intro hrd hdest hlt
    unfold IPbusControlPacket.prGo
    rw [if_neg (by simp only [hver, hid, hty]; simp)]
    unfold IPbusControlPacket.prStep
    dsimp only
    rw [if_neg (by omega)]
    rw [hrd]
    dsimp only
    rw [if_pos hlt]
    rw [hdest]
    have hm : wordsAheadAt respSize t.responseHeaderOffset % 256 =
        wordsAheadAt respSize t.responseHeaderOffset :=
      Nat.mod_eq_of_lt (hlt.trans (thWords_lt256 _))
    simp [hinfo, hm]
  · intro hW0
    unfold IPbusControlPacket.prGo
    rw [if_neg (by simp only [hver, hid, hty]; simp)]
    unfold IPbusControlPacket.prStep
    dsimp only
    rw [if_pos hW0]
    dsimp only
    rw [if_pos hinfo]
    simp [hW0]

/-- Witness for C6 at the concrete faulting write of the counterexample. -/
theorem c6_info_code_fault_witness :
    IPbusControlPacket.prGo (fun i => List.getD [0x200000F0, 0x20000116] i 0) 2
        [0x200000F0, 0x20000110, 0x1000] 0 [⟨1, 2, 1, DataPtr.reqPtr 3⟩] =
      ⟨false,
        [Sig.successfulWrite 1,
          Sig.error (ErrMsg.infoCodeFault 6 4097) errorType.IPbusError],
        []⟩ :=
  (c6_info_code_fault (fun i => List.getD [0x200000F0, 0x20000116] i 0) 2
      [0x200000F0, 0x20000110, 0x1000] 0 ⟨1, 2, 1, DataPtr.reqPtr 3⟩ []
      (by decide) (by decide) (by decide) (by decide)).1 (by decide)

/-- A successful, non-truncated walk of `IPbusTarget::processResponse` over a
single read transaction with a caller destination. -/
theorem IPbusTarget.prGoT_single_read (resp : Nat → Nat) (respSize : Nat)
    (req : List Nat) (t : Transaction)
    (hver : thVersion (resp t.responseHeaderOffset) = 2)
    (hid : thID (resp t.responseHeaderOffset) = 0)
    (hty : thTypeID (resp t.responseHeaderOffset) = 0)
    (hreqty : thTypeID (req.getD t.requestHeaderOffset 0) = 0)
    (hinfo : thInfoCode (resp t.responseHeaderOffset) = 0)
    (hdest : t.data = DataPtr.callerPtr)
    (hWpos : 0 < thWords (resp t.responseHeaderOffset))
    (hnotrunc : t.responseHeaderOffset + thWords (resp t.responseHeaderOffset) < respSize) :
    IPbusTarget.prGoT resp respSize req 0 [t] =
      ⟨true, [Sig.successfulRead (thWords (resp t.responseHeaderOffset))],
        [(0, copyWords resp t.responseHeaderOffset
            (min (thWords (resp t.responseHeaderOffset))
              (respSize - (t.responseHeaderOffset + 1))))]⟩ := by
  unfold IPbusTarget.prGoT
  rw [if_neg (by simp only [hver, hid, hty, hreqty]; simp)]
  unfold IPbusTarget.prStepT
  dsimp only
  rw [if_neg (by omega)]
  rw [hty]
  dsimp only
  rw [hdest]
  rw [if_neg (by omega)]
  dsimp only
  rw [if_neg (by simp [hinfo])]
  unfold IPbusTarget.prGoT
  simp

/-- Evaluation of the response walk for the one-read packet of a fresh
target answered by a well-formed 12-byte datagram carrying one payload
word `v`. -/
theorem IPbusTarget.prGoT_freshRead (rf : Nat → Nat) (address v : Nat) :
    IPbusTarget.prGoT
      (overwriteResponse rf
        ⟨12, fun i => List.getD [controlPacketHeader, TransactionHeaderWord 0 1 0, v] i 0⟩) 3
      [controlPacketHeader, TransactionHeaderWord 0 1 0, word32 address] 0
      [⟨1, 2, 1, DataPtr.callerPtr⟩] =
      ⟨true, [Sig.successfulRead 1], [(0, [word32 v])]⟩ := by
  have hr1 : overwriteResponse rf
      ⟨12, fun i => List.getD [controlPacketHeader, TransactionHeaderWord 0 1 0, v] i 0⟩ 1 =
      536871168 := by
    simp [overwriteResponse, TransactionHeaderWord, word32, wordModulus]
  have hr2 : overwriteResponse rf
      ⟨12, fun i => List.getD [controlPacketHeader, TransactionHeaderWord 0 1 0, v] i 0⟩ 2 =
      word32 v := by
    simp [overwriteResponse, word32, wordModulus]
  have hgd1 : List.getD [controlPacketHeader, TransactionHeaderWord 0 1 0, word32 address] 1 0 =
      TransactionHeaderWord 0 1 0 := by simp
  have hstep := IPbusTarget.prGoT_single_read
    (overwriteResponse rf
      ⟨12, fun i => List.getD [controlPacketHeader, TransactionHeaderWord 0 1 0, v] i 0⟩) 3
    [controlPacketHeader, TransactionHeaderWord 0 1 0, word32 address]
    ⟨1, 2, 1, DataPtr.callerPtr⟩
    (by rw [show (⟨1, 2, 1, DataPtr.callerPtr⟩ : Transaction).responseHeaderOffset = 1 from rfl,
        hr1]; decide)
    (by rw [show (⟨1, 2, 1, DataPtr.callerPtr⟩ : Transaction).responseHeaderOffset = 1 from rfl,
        hr1]; decide)
    (by rw [show (⟨1, 2, 1, DataPtr.callerPtr⟩ : Transaction).responseHeaderOffset = 1 from rfl,
        hr1]; decide)
    (by rw [show (⟨1, 2, 1, DataPtr.callerPtr⟩ : Transaction).requestHeaderOffset = 1 from rfl,
        hgd1]; decide)
    (by rw [show (⟨1, 2, 1, DataPtr.callerPtr⟩ : Transaction).responseHeaderOffset = 1 from rfl,
        hr1]; decide)
    rfl
    (by rw [show (⟨1, 2, 1, DataPtr.callerPtr⟩ : Transaction).responseHeaderOffset = 1 from rfl,
        hr1]; decide)
    (by rw [show (⟨1, 2, 1, DataPtr.callerPtr⟩ : Transaction).responseHeaderOffset = 1 from rfl,
        hr1]; decide)
  rw [hstep]
  rw [show (⟨1, 2, 1, DataPtr.callerPtr⟩ : Transaction).responseHeaderOffset = 1 from rfl, hr1]
  rw [show thWords 536871168 = 1 from by decide]
  rw [show copyWords
      (overwriteResponse rf
        ⟨12, fun i => List.getD [controlPacketHeader, TransactionHeaderWord 0 1 0, v] i 0⟩)
      1 (min 1 (3 - (1 + 1))) =
      [overwriteResponse rf
        ⟨12, fun i => List.getD [controlPacketHeader, TransactionHeaderWord 0 1 0, v] i 0⟩ 2]
    from by simp [copyWords, List.range_succ]]
  rw [hr2]

/-- Evaluation of `transceive` for the one-read packet of a fresh target
answered by a well-formed 12-byte datagram carrying one payload word `v`:
the call succeeds, emits `successfulRead 1`, copies the word to the caller
destination and resets the packet. -/
theorem IPbusTarget.transceive_freshRead (rf : Nat → Nat) (onl tmr : Bool) (address v : Nat) :
    (IPbusTarget.mk [controlPacketHeader, TransactionHeaderWord 0 1 0, word32 address] 3 rf
        [⟨1, 2, 1, DataPtr.callerPtr⟩] onl tmr).transceive
      ⟨12, [⟨12, fun i =>
        List.getD [controlPacketHeader, TransactionHeaderWord 0 1 0, v] i 0⟩]⟩ true =
      ⟨⟨[controlPacketHeader], 1,
          overwriteResponse rf
            ⟨12, fun i => List.getD [controlPacketHeader, TransactionHeaderWord 0 1 0, v] i 0⟩,
          [], onl, tmr⟩,
        true, [Sig.successfulRead 1], [(0, [word32 v])],
        [[controlPacketHeader, TransactionHeaderWord 0 1 0, word32 address]]⟩ := by
  have hr0 : overwriteResponse rf
      ⟨12, fun i => List.getD [controlPacketHeader, TransactionHeaderWord 0 1 0, v] i 0⟩ 0 =
      controlPacketHeader := by
    simp [overwriteResponse, controlPacketHeader, PacketHeaderWord, word32, wordModulus]
  unfold IPbusTarget.transceive
  rw [if_neg (by simp)]
  dsimp only
  rw [if_neg (by norm_num)]
  rw [if_neg (by simp)]
  rw [if_neg (by simp)]
  unfold IPbusTarget.afterRead
  rw [if_neg (by norm_num)]
  rw [if_neg (by dsimp only; rw [hr0]; simp)]
  dsimp only
  rw [IPbusTarget.prGoT_freshRead]
  simp [IPbusTarget.resetTransactions, Sig.isError]

/-- Unfolding lemma for `readRegister` with its local lets expanded. -/
theorem IPbusTarget.readRegister_eq (s : IPbusTarget) (sock : SocketModel) (address : Nat) :
    s.readRegister sock address =
      ⟨((s.addTransaction TransactionType.ipread address (some [4294967295]) 1).1.transceive
          sock true).state,
        if ((s.addTransaction TransactionType.ipread address (some [4294967295]) 1).1.transceive
            sock true).ok then
          match lookupCopy
              ((s.addTransaction TransactionType.ipread address (some [4294967295]) 1).1.transceive
                sock true).copies s.transactionsList.length with
          | some ws => ws.headD 4294967295
          | none => 4294967295
        else 4294967295,
        ((s.addTransaction TransactionType.ipread address (some [4294967295]) 1).1.transceive
          sock true).ok,
        (s.addTransaction TransactionType.ipread address (some [4294967295]) 1).2 ++
          ((s.addTransaction TransactionType.ipread address (some [4294967295]) 1).1.transceive
            sock true).sigs,
        ((s.addTransaction TransactionType.ipread address (some [4294967295]) 1).1.transceive
          sock true).sent⟩ := rfl

/-- C8: when the request was written in full but no datagram arrives within
the timeout, `transceive` emits `noResponse` (which is not the `error`
signal), clears the online flag and returns failure, while the packet is not
reset: the request buffer, `responseSize` and the transaction list keep the
values they had before the call, and only `isOnline` changes. -/
theorem c8_timeout_keeps_packet (s : IPbusTarget) (sock : SocketModel) (b : Bool)
    (hreq : 1 < s.request.length)
    (hw : sock.writeResult = (s.request.length * 4 : Int))
    (hinc : sock.incoming = []) :
    s.transceive sock b =
      ⟨{ s with isOnline := false }, false, [Sig.noResponse], [], [s.request]⟩ := by
  unfold IPbusTarget.transceive
  rw [if_neg (by omega)]
  dsimp only
  rw [hw, hinc]
  rw [if_neg (by omega)]
  rw [if_neg (by simp)]

/-- Witness for C8 at a concrete timeout. -/
theorem c8_timeout_keeps_packet_witness :
    sampleWriteTarget.transceive ⟨16, []⟩ true =
      ⟨{ sampleWriteTarget with isOnline := false }, false, [Sig.noResponse], [],
        [sampleWriteTarget.request]⟩ :=
  c8_timeout_keeps_packet sampleWriteTarget ⟨16, []⟩ true (by decide) (by decide) rfl

/-- C9: `readRegister` appends one single-word read transaction to the
packet (shown for a fresh builder: the request becomes packet header, read
transaction header, address), exchanges it, and on success returns the word
carried by the response payload; whenever the inner `transceive` returns
failure, for any reason, it returns `0xFFFFFFFF = 4294967295`. -/
theorem c9_read_register (rf : Nat → Nat) (onl tmr : Bool) (address v : Nat) :
    (∀ (s : IPbusTarget) (sock : SocketModel),
      (s.readRegister sock address).ok = false →
        (s.readRegister sock address).value = 4294967295) ∧
    ((IPbusTarget.mk [controlPacketHeader] 1 rf [] onl tmr).addTransaction
        TransactionType.ipread address (some [4294967295]) 1).1 =
      IPbusTarget.mk [controlPacketHeader, TransactionHeaderWord 0 1 0, word32 address] 3 rf
        [⟨1, 2, 1, DataPtr.callerPtr⟩] onl tmr ∧
    (v < 4294967296 →
      ((IPbusTarget.mk [controlPacketHeader] 1 rf [] onl tmr).readRegister
          ⟨12, [⟨12, fun i =>
            List.getD [controlPacketHeader, TransactionHeaderWord 0 1 0, v] i 0⟩]⟩
          address).value = v ∧
        ((IPbusTarget.mk [controlPacketHeader] 1 rf [] onl tmr).readRegister
          ⟨12, [⟨12, fun i =>
            List.getD [controlPacketHeader, TransactionHeaderWord 0 1 0, v] i 0⟩]⟩
          address).ok = true ∧
        ((IPbusTarget.mk [controlPacketHeader] 1 rf [] onl tmr).readRegister
          ⟨12, [⟨12, fun i =>
            List.getD [controlPacketHeader, TransactionHeaderWord 0 1 0, v] i 0⟩]⟩
          address).sigs = [Sig.successfulRead 1]) := by
  have hA1 : ((IPbusTarget.mk [controlPacketHeader] 1 rf [] onl tmr).addTransaction
      TransactionType.ipread address (some [4294967295]) 1).1 =
      IPbusTarget.mk [controlPacketHeader, TransactionHeaderWord 0 1 0, word32 address] 3 rf
        [⟨1, 2, 1, DataPtr.callerPtr⟩] onl tmr := by
    simp [IPbusTarget.addTransaction, addTxnPayload, TransactionType.typeID]
  have hA2 : ((IPbusTarget.mk [controlPacketHeader] 1 rf [] onl tmr).addTransaction
      TransactionType.ipread address (some [4294967295]) 1).2 = [] := by
    simp [IPbusTarget.addTransaction, addTxnPayload, TransactionType.typeID]
  refine ⟨?_, hA1, ?_⟩
  · intro s sock h
    rw [IPbusTarget.readRegister_eq] at h ⊢
    dsimp only at h ⊢
    rw [h]
    try simp
  · intro hv
    rw [IPbusTarget.readRegister_eq, hA1, hA2, IPbusTarget.transceive_freshRead]
    refine ⟨?_, rfl, rfl⟩
    exact Nat.mod_eq_of_lt hv

/-- Witness for C9 at a concrete successful exchange reading the word 42. -/
theorem c9_read_register_witness :
    ((IPbusTarget.mk [controlPacketHeader] 1 (fun _ => 0) [] false true).readRegister
        ⟨12, [⟨12, fun i =>
          List.getD [controlPacketHeader, TransactionHeaderWord 0 1 0, 42] i 0⟩]⟩
        3735928559).value = 42 ∧
      ((IPbusTarget.mk [controlPacketHeader] 1 (fun _ => 0) [] false true).readRegister
        ⟨12, [⟨12, fun i =>
          List.getD [controlPacketHeader, TransactionHeaderWord 0 1 0, 42] i 0⟩]⟩
        3735928559).ok = true ∧
      ((IPbusTarget.mk [controlPacketHeader] 1 (fun _ => 0) [] false true).readRegister
        ⟨12, [⟨12, fun i =>
          List.getD [controlPacketHeader, TransactionHeaderWord 0 1 0, 42] i 0⟩]⟩
        3735928559).sigs = [Sig.successfulRead 1] :=
  (c9_read_register (fun _ => 0) false true 3735928559 42).2.2 (by norm_num)

/-- Any emission of the `error` signal leaves the builder reset and the
keepalive timer stopped, because the constructor connects the signal to a
slot doing exactly that. -/
theorem IPbusTarget.emitError_resets (s : IPbusTarget) (m : ErrMsg) (t : errorType)
    (h : 1 ≤ s.request.length) : ((s.emitError m t).1).isBuilderReset := by
  refine ⟨?_, rfl, rfl, rfl⟩
  simp only [IPbusTarget.emitError, IPbusTarget.resetTransactions, List.length_take]
  omega

/-- When the tail of `transceive` emits an `error` signal, the final state
has the builder reset and the timer stopped. -/
theorem IPbusTarget.afterRead_error_resets (s : IPbusTarget) (n : Nat) (b : Bool)
    (sent : List (List Nat)) (hwf : 1 ≤ s.request.length)
    (h : (s.afterRead n b sent).sigs.any Sig.isError = true) :
    (s.afterRead n b sent).state.isBuilderReset := by
  revert h
  unfold IPbusTarget.afterRead
  dsimp only
  split
  · intro _
    exact IPbusTarget.emitError_resets s ErrMsg.emptyResponse errorType.networkError hwf
  · split
    · intro _
      exact IPbusTarget.emitError_resets s (ErrMsg.incorrectResponse n) errorType.networkError hwf
    · split
      · intro h
        refine ⟨?_, rfl, rfl, ?_⟩
        · simp only [IPbusTarget.resetTransactions, List.length_take]
          omega
        · simp [h]
      · intro h
        simp at h

/-- When `transceive` emits an `error` signal, the final state has the
builder reset and the timer stopped. -/
theorem IPbusTarget.transceive_error_resets (s : IPbusTarget) (sock : SocketModel) (b : Bool)
    (hwf : 1 ≤ s.request.length)
    (h : (s.transceive sock b).sigs.any Sig.isError = true) :
    (s.transceive sock b).state.isBuilderReset := by
  revert h
  unfold IPbusTarget.transceive
  dsimp only
  split
  · intro _
    exact IPbusTarget.emitError_resets s ErrMsg.emptyRequest errorType.logicError hwf
  · split
    · intro _
      exact IPbusTarget.emitError_resets s ErrMsg.socketWriteError errorType.networkError hwf
    · split
      · intro _
        exact IPbusTarget.emitError_resets s ErrMsg.sendingFailed errorType.networkError hwf
      · split
        · intro h
          simp [Sig.isError] at h
        · split
          · split
            · intro h
              simp [Sig.isError] at h
            · intro h
              exact IPbusTarget.afterRead_error_resets _ _ _ _ hwf h
          · intro h
            exact IPbusTarget.afterRead_error_resets _ _ _ _ hwf h

/-- When `addTransaction` emits an `error` signal (packet overflow), the
final state has the builder reset and the timer stopped. -/
theorem IPbusTarget.addTransaction_error_resets (s : IPbusTarget) (type : TransactionType)
    (address : Nat) (data : Option (List Nat)) (nWords : Nat)
    (hwf : 1 ≤ s.request.length)
    (h : (s.addTransaction type address data nWords).2.any Sig.isError = true) :
    (s.addTransaction type address data nWords).1.isBuilderReset := by
  have hg := addTxnPayload_growth type
    ((s.request ++ [TransactionHeaderWord type.typeID nWords s.transactionsList.length])
      ++ [word32 address]) (s.responseSize + 1) data nWords
  simp only [List.length_append, List.length_singleton] at hg
  revert h
  unfold IPbusTarget.addTransaction
  dsimp only
  split
  · intro _
    apply IPbusTarget.emitError_resets
    dsimp only
    omega
  · intro h
    simp at h

/-- `addTransaction` keeps the request nonempty. -/
theorem IPbusTarget.addTransaction_wf (s : IPbusTarget) (type : TransactionType)
    (address : Nat) (data : Option (List Nat)) (nWords : Nat)
    (hwf : 1 ≤ s.request.length) :
    1 ≤ (s.addTransaction type address data nWords).1.request.length :=
  IPbusTarget.addTransaction_request s type address data nWords hwf

/-- When `readRegister` emits an `error` signal through its builder call or
its exchange, the final state has the builder reset and the timer stopped. -/
theorem IPbusTarget.readRegister_error_resets (s : IPbusTarget) (sock : SocketModel)
    (address : Nat) (hwf : 1 ≤ s.request.length)
    (h : (s.readRegister sock address).sigs.any Sig.isError = true) :
    (s.readRegister sock address).state.isBuilderReset := by
  rw [IPbusTarget.readRegister_eq] at h ⊢
  dsimp only at h ⊢
  rw [List.any_append] at h
  rcases Bool.or_eq_true_iff.mp h with ha | hr
  · have hreset := IPbusTarget.addTransaction_error_resets s TransactionType.ipread address
      (some [4294967295]) 1 hwf ha
    have hlen : ((s.addTransaction TransactionType.ipread address
        (some [4294967295]) 1).1).request.length ≤ 1 := by
      rw [hreset.1]
    rw [IPbusTarget.transceive_short _ sock true hlen]
    refine ⟨?_, rfl, rfl, rfl⟩
    simp only [List.length_take]
    have h1 := hreset.1
    omega
  · exact IPbusTarget.transceive_error_resets _ sock true
      (IPbusTarget.addTransaction_wf s TransactionType.ipread address (some [4294967295]) 1 hwf)
      hr

/-- C10: every emission of the `error` signal by an `IPbusTarget` operation
(builder call, exchange, status probe, register read) leaves the keepalive
timer stopped and the packet builder back in its initial state:
`requestSize = 1`, `responseSize = 1`, empty transaction list. -/
theorem c10_error_resets_builder (s : IPbusTarget) (sock : SocketModel)
    (incoming : List Datagram) (type : TransactionType) (address : Nat)
    (data : Option (List Nat)) (nWords : Nat) (b : Bool)
    (hwf : 1 ≤ s.request.length) :
    ((s.addTransaction type address data nWords).2.any Sig.isError = true →
      (s.addTransaction type address data nWords).1.isBuilderReset) ∧
    ((s.transceive sock b).sigs.any Sig.isError = true →
      (s.transceive sock b).state.isBuilderReset) ∧
    ((s.checkStatus incoming).2.1.any Sig.isError = true →
      (s.checkStatus incoming).1.isBuilderReset) ∧
    ((s.readRegister sock address).sigs.any Sig.isError = true →
      (s.readRegister sock address).state.isBuilderReset) := by
  refine ⟨?_, ?_, ?_, ?_⟩
  · exact fun h => IPbusTarget.addTransaction_error_resets s type address data nWords hwf h
  · exact fun h => IPbusTarget.transceive_error_resets s sock b hwf h
  · intro h
    exfalso
    cases incoming <;> simp [IPbusTarget.checkStatus, Sig.isError] at h
  · exact fun h => IPbusTarget.readRegister_error_resets s sock address hwf h

/-- Witness for C10 at a concrete socket write error. -/
theorem c10_error_resets_builder_witness :
    (sampleWriteTarget.transceive ⟨-1, []⟩ true).state.isBuilderReset :=
  (c10_error_resets_builder sampleWriteTarget ⟨-1, []⟩ [] TransactionType.ipread 0 none 1 true
    (by decide)).2.1 (by decide)
